import Mathlib

/-!
Shallow embedding of the licence-availability checker
(`Programming/Python/CheckCreator/main.py`) of the GIS repository.

The script exposes two FastAPI endpoints backed by a remote ArcGIS
feature-service table used as a lease store:

* `getRecords` (lines 73-102): acquires a token, deletes all records whose
  `end_` is earlier than the store's `CURRENT_TIMESTAMP`, and on an HTTP-200
  delete queries every remaining record and returns the count.
* `create_item` (`POST /add`, lines 114-161): purges and counts; denies when
  `creatorLicences <= records`; otherwise computes `now` and
  `end = now + duration * 60000`, acquires a second token, and submits one
  record `{id, user_, start, end_}` as a single-element `addFeatures` batch
  with `rollbackOnFailure: True`; the HTTP status of the store's response
  decides success or failure.
* `check` (`POST /check`, lines 165-176): purges and counts, then reports
  `{status: success, licences: creatorLicences - checkRecords}` when
  `creatorLicences > checkRecords` and `{status: failed, licences: 0}`
  otherwise.

Timestamps are milliseconds since the epoch; the Python values are produced
by `datetime.now().timestamp() * 1000` and are modelled here as exact
rationals (ℚ).  Counts and configuration integers are modelled as ℤ/ℕ.
External effects (HTTP outcomes of the delete, token and insert calls, the
local clock) are captured by an explicit environment record, and `sys.exit`
paths are modelled by `Option.none`.
-/

/-- One record of the lease table.  Field names follow the attribute names
the script writes in its `addFeatures` payload (lines 138-143):
`id`, `user_`, `start`, `end_`. -/
structure Lease where
  id : String
  user_ : Option String
  start : ℚ
  end_ : ℚ
deriving Repr, DecidableEq

/-- The remote feature-service table: its records together with the store's
own current server time (the `CURRENT_TIMESTAMP` used by the delete's
`where` clause on line 80). -/
structure Store where
  records : List Lease
  now : ℚ
deriving Repr, DecidableEq

/-- Startup configuration that the endpoints read: the creator-licence
capacity fetched from the portal (line 247) and the lease duration in
minutes from `config.ini` (line 230). -/
structure Config where
  creatorLicences : ℤ
  duration : ℤ
deriving Repr, DecidableEq

/-- Outcomes of the external calls a single request performs, plus the local
clock.  `deleteOk`: the `deleteFeatures` call returns HTTP 200 (line 85);
`tokenOk`: the second `getToken` call on line 125 does not raise;
`addOk`: the `addFeatures` call returns HTTP 200 (line 153);
`now`: the value of `datetime.now().timestamp() * 1000` (line 121);
`leak`: how many features of a failed batch the store would keep were
rollback-on-failure disabled (the script always enables it). -/
structure Env where
  deleteOk : Bool
  tokenOk : Bool
  addOk : Bool
  now : ℚ
  leak : Nat
deriving Repr, DecidableEq

/-- Side effects of one request that are visible to the external services:
how many token-endpoint calls and how many insert attempts it made. -/
structure Effects where
  tokenCalls : Nat
  insertAttempts : Nat
deriving Repr, DecidableEq

/-- Response status, the `status` field of the JSON bodies. -/
inductive Status where
  | success
  | failed
deriving Repr, DecidableEq

/-- Request body of `POST /add` (lines 108-110): `ID` required, `username`
optional with default `None`. -/
structure Item where
  ID : String
  username : Option String
deriving Repr, DecidableEq

/-- Response body of `POST /add`.  The denial and insert-failure bodies of
the script carry only `ID`, `creator`, `status` and a message, so the other
fields default to `none`.  `licencesRemaining` is the number the success
message interpolates on line 158; `start`/`end_` are the timestamps that
line 155-157 formats into the body. -/
structure AddResponse where
  ID : String
  creator : Option String
  status : Status
  start : Option ℚ := none
  end_ : Option ℚ := none
  remainingMinutes : Option ℤ := none
  licencesRemaining : Option ℤ := none
deriving Repr, DecidableEq

/-- Response body of `POST /check` (lines 173-176): the `licences` number
its two branches report. -/
structure CheckResponse where
  status : Status
  licences : ℤ
deriving Repr, DecidableEq

/-- Effect of the `deleteFeatures` call with
`where: "end_ < CURRENT_TIMESTAMP"` (lines 78-84): the store drops exactly
the records whose `end_` is earlier than the store's own current time. -/
def purge (s : Store) : Store :=
  { s with records := s.records.filter (fun l => ! decide (l.end_ < s.now)) }

/-- The single-record batch the script sends to `addFeatures`
(lines 135-150): a one-element `features` list and
`rollbackOnFailure: True`. -/
structure AddFeaturesRequest where
  features : List Lease
  rollbackOnFailure : Bool
deriving Repr, DecidableEq

/-- The payload built on lines 135-150 for item `item`, creation time `now`
and expiry `endv`. -/
def addRequest (item : Item) (now endv : ℚ) : AddFeaturesRequest :=
  { features := [{ id := item.ID, user_ := item.username, start := now, end_ := endv }],
    rollbackOnFailure := true }

/-- Store semantics of `addFeatures`: on success the batch is appended; on
failure with `rollbackOnFailure` the store is unchanged; on failure without
rollback the store may keep a prefix of the batch (`leak` features). -/
def addFeatures (ok : Bool) (leak : Nat) (req : AddFeaturesRequest) (s : Store) : Store :=
  if ok then
    { s with records := s.records ++ req.features }
  else if req.rollbackOnFailure then
    s
  else
    { s with records := s.records ++ req.features.take leak }

/-- `getRecords` (lines 73-102): delete the expired records server-side;
if the delete call returns HTTP 200, query all remaining records and return
their count together with the resulting store; otherwise `sys.exit`
(modelled as `none`).  The token acquired on line 75 is accounted for in
the callers' effect counts. -/
def getRecords (env : Env) (s : Store) : Option (Nat × Store) :=
  if env.deleteOk then
    let s1 := purge s
    some (s1.records.length, s1)
  else
    none

/-- `create_item` (`POST /add`, lines 114-161).  Returns the response body,
the resulting store and the request's effect counts; `none` models the
`sys.exit` paths (delete failure inside `getRecords`, token failure on
line 129). -/
def create_item (cfg : Config) (env : Env) (s : Store) (item : Item) :
    Option (AddResponse × Store × Effects) :=
  match getRecords env s with
  | none => none
  | some (records, s1) =>
    if cfg.creatorLicences ≤ (records : ℤ) then
      some ({ ID := item.ID, creator := item.username, status := Status.failed },
            s1, { tokenCalls := 1, insertAttempts := 0 })
    else
      let now := env.now
      let endv := now + (cfg.duration : ℚ) * 60000
      if env.tokenOk then
        let s2 := addFeatures env.addOk env.leak (addRequest item now endv) s1
        if env.addOk then
          some ({ ID := item.ID, creator := item.username, status := Status.success,
                  start := some now, end_ := some endv,
                  remainingMinutes := some cfg.duration,
                  licencesRemaining := some (cfg.creatorLicences - (records : ℤ) - 1) },
                s2, { tokenCalls := 2, insertAttempts := 1 })
        else
          some ({ ID := item.ID, creator := item.username, status := Status.failed },
                s2, { tokenCalls := 2, insertAttempts := 1 })
      else
        none

/-- `check` (`POST /check`, lines 165-176): purge and count, then report the
remaining licences or a failure.  A `getRecords` fault exits the process
(`none`). -/
def check (cfg : Config) (env : Env) (s : Store) : Option (CheckResponse × Store) :=
  match getRecords env s with
  | none => none
  | some (records, s1) =>
    if cfg.creatorLicences > (records : ℤ) then
      some ({ status := Status.success, licences := cfg.creatorLicences - (records : ℤ) }, s1)
    else
      some ({ status := Status.failed, licences := 0 }, s1)

/-- The spec's notion of an active lease: a lease is active iff its `end_`
is strictly greater than the current time.  Stated from the spec's words to
compare with the code's purge predicate. -/
def specActive (l : Lease) (now : ℚ) : Bool :=
  decide (now < l.end_)

/-! ### Helper lemmas about `purge` -/

theorem purge_now (s : Store) : (purge s).now = s.now := rfl

theorem mem_purge (s : Store) (l : Lease) :
    l ∈ (purge s).records ↔ l ∈ s.records ∧ ¬ l.end_ < s.now := by
  simp [purge, List.mem_filter]

theorem purge_idem (s : Store) : purge (purge s) = purge s := by
  simp only [purge, List.filter_filter]
  congr 1
  apply List.filter_congr
  intro a _
  simp

theorem getRecords_of_deleteOk (env : Env) (s : Store) (hdel : env.deleteOk = true) :
    getRecords env s = some ((purge s).records.length, purge s) := by
  simp [getRecords, hdel]

/-! ### Helper lemmas reducing `create_item` along its three completed paths -/

theorem create_item_denied (cfg : Config) (env : Env) (s : Store) (item : Item)
    (hdel : env.deleteOk = true)
    (hcap : cfg.creatorLicences ≤ ((purge s).records.length : ℤ)) :
    create_item cfg env s item =
      some ({ ID := item.ID, creator := item.username, status := Status.failed },
            purge s, { tokenCalls := 1, insertAttempts := 0 }) := by
  simp only [create_item, getRecords_of_deleteOk env s hdel]
  simp [hcap]

theorem create_item_granted_ok (cfg : Config) (env : Env) (s : Store) (item : Item)
    (hdel : env.deleteOk = true) (htok : env.tokenOk = true) (haddOk : env.addOk = true)
    (hcap : ((purge s).records.length : ℤ) < cfg.creatorLicences) :
    create_item cfg env s item =
      some ({ ID := item.ID, creator := item.username, status := Status.success,
              start := some env.now,
              end_ := some (env.now + (cfg.duration : ℚ) * 60000),
              remainingMinutes := some cfg.duration,
              licencesRemaining :=
                some (cfg.creatorLicences - ((purge s).records.length : ℤ) - 1) },
            Store.mk ((purge s).records ++
              [{ id := item.ID, user_ := item.username, start := env.now,
                 end_ := env.now + (cfg.duration : ℚ) * 60000 }]) s.now,
            { tokenCalls := 2, insertAttempts := 1 }) := by
  simp only [create_item, getRecords_of_deleteOk env s hdel]
  rw [if_neg (not_le.mpr hcap)]
  simp [htok, haddOk, addFeatures, addRequest, purge]

theorem create_item_granted_fail (cfg : Config) (env : Env) (s : Store) (item : Item)
    (hdel : env.deleteOk = true) (htok : env.tokenOk = true) (hfail : env.addOk = false)
    (hcap : ((purge s).records.length : ℤ) < cfg.creatorLicences) :
    create_item cfg env s item =
      some ({ ID := item.ID, creator := item.username, status := Status.failed },
            purge s, { tokenCalls := 2, insertAttempts := 1 }) := by
  simp only [create_item, getRecords_of_deleteOk env s hdel]
  rw [if_neg (not_le.mpr hcap)]
  simp [htok, hfail, addFeatures, addRequest]

/-! ### Claim theorems -/

/-- C1: for every capacity and every purged active count `A`, admission is
granted (an insert is attempted) iff `A < capacity`; when `capacity ≤ A`
both `/add` and `/check` answer with `status: failed`. -/
theorem c1_admission_iff (cfg : Config) (env : Env) (s : Store) (item : Item)
    (hdel : env.deleteOk = true) (htok : env.tokenOk = true) :
    ((create_item cfg env s item).map (fun p => p.2.2.insertAttempts) = some 1
      ↔ ((purge s).records.length : ℤ) < cfg.creatorLicences)
    ∧ (cfg.creatorLicences ≤ ((purge s).records.length : ℤ) →
        (create_item cfg env s item).map (fun p => p.1.status) = some Status.failed)
    ∧ ((check cfg env s).map (fun p => p.1.status) = some Status.success
      ↔ ((purge s).records.length : ℤ) < cfg.creatorLicences)
    ∧ (cfg.creatorLicences ≤ ((purge s).records.length : ℤ) →
        (check cfg env s).map (fun p => p.1.status) = some Status.failed) := by
  by_cases hc : ((purge s).records.length : ℤ) < cfg.creatorLicences
  · have hck : (check cfg env s).map (fun p => p.1.status) = some Status.success := by
      simp [check, getRecords_of_deleteOk env s hdel, hc]
    refine ⟨?_, fun h => absurd hc (not_lt.mpr h), by simp [hck, hc],
            fun h => absurd hc (not_lt.mpr h)⟩
    cases ha : env.addOk
    · rw [create_item_granted_fail cfg env s item hdel htok ha hc]
      simp [hc]
    · rw [create_item_granted_ok cfg env s item hdel htok ha hc]
      simp [hc]
  · have hcap := not_lt.mp hc
    rw [create_item_denied cfg env s item hdel hcap]
    have hck : (check cfg env s).map (fun p => p.1.status) = some Status.failed := by
      simp [check, getRecords_of_deleteOk env s hdel, not_lt.mp hc, hc]
    exact ⟨by simp [hc], fun _ => rfl, by simp [hck, hc], fun _ => hck⟩

/-- C1 witness: capacity 1 and one unexpired lease (`A = 1 = C`): both
endpoints answer `failed`. -/
theorem c1_admission_iff_witness :
    (Env.mk true true true 2000 0).deleteOk = true
    ∧ (create_item ⟨1, 60⟩ ⟨true, true, true, 2000, 0⟩
          ⟨[⟨"a", none, 0, 5000⟩], 1000⟩ ⟨"u3", none⟩).map (fun p => p.1.status)
        = some Status.failed
    ∧ (check ⟨1, 60⟩ ⟨true, true, true, 2000, 0⟩ ⟨[⟨"a", none, 0, 5000⟩], 1000⟩).map
        (fun p => p.1.status) = some Status.failed := by
  have h := c1_admission_iff ⟨1, 60⟩ ⟨true, true, true, 2000, 0⟩
      ⟨[⟨"a", none, 0, 5000⟩], 1000⟩ ⟨"u3", none⟩ rfl rfl
  exact ⟨rfl, h.2.1 (by decide), h.2.2.2 (by decide)⟩

/-- C2: the purge-and-count operation first deletes from the store exactly
the records whose `end_` is earlier than the store's own current time, and
on a successful delete it queries the remaining records and returns their
count; a failed delete aborts (process exit). -/
theorem c2_purge_then_count (env : Env) (s : Store) :
    (∀ l, l ∈ (purge s).records ↔ l ∈ s.records ∧ ¬ l.end_ < s.now)
    ∧ (purge s).now = s.now
    ∧ getRecords env s =
        (if env.deleteOk then some ((purge s).records.length, purge s) else none) :=
  ⟨mem_purge s, rfl, rfl⟩

/-- C3: a granted acquire-lease request computes the expiry as exactly
`start + duration * 60000` (milliseconds), both in the success response and
in the record inserted into the store. -/
theorem c3_end_arithmetic (cfg : Config) (env : Env) (s : Store) (item : Item)
    (hdel : env.deleteOk = true) (htok : env.tokenOk = true) (haddOk : env.addOk = true)
    (hcap : ((purge s).records.length : ℤ) < cfg.creatorLicences) :
    (create_item cfg env s item).map (fun p => (p.1.start, p.1.end_)) =
      some (some env.now, some (env.now + (cfg.duration : ℚ) * 60000))
    ∧ (create_item cfg env s item).map (fun p => p.2.1.records) =
      some ((purge s).records ++
        [{ id := item.ID, user_ := item.username, start := env.now,
           end_ := env.now + (cfg.duration : ℚ) * 60000 }]) := by
  rw [create_item_granted_ok cfg env s item hdel htok haddOk hcap]
  exact ⟨rfl, rfl⟩

/-- C3 witness: duration 60 minutes, local clock at 7 ms, empty store:
the lease ends at `7 + 60 * 60000 = 3600007` ms. -/
theorem c3_end_arithmetic_witness :
    ((0:ℤ) < 2)
    ∧ (create_item ⟨2, 60⟩ ⟨true, true, true, 7, 0⟩ ⟨[], 0⟩ ⟨"u1", none⟩).map
        (fun p => (p.1.start, p.1.end_)) = some (some 7, some 3600007) := by
  have h := c3_end_arithmetic ⟨2, 60⟩ ⟨true, true, true, 7, 0⟩ ⟨[], 0⟩ ⟨"u1", none⟩
      rfl rfl rfl (by decide)
  refine ⟨by decide, ?_⟩
  rw [h.1]
  norm_num

/-- C4: `/check` answers `{status: success, licences: C - A}` when `A < C`
and `{status: failed, licences: 0}` otherwise, where `A` is the purged
active count; the store is left purged. -/
theorem c4_check_endpoint (cfg : Config) (env : Env) (s : Store)
    (hdel : env.deleteOk = true) :
    check cfg env s = some
      ((if ((purge s).records.length : ℤ) < cfg.creatorLicences then
          { status := Status.success,
            licences := cfg.creatorLicences - ((purge s).records.length : ℤ) }
        else { status := Status.failed, licences := 0 }), purge s) := by
  by_cases hc : ((purge s).records.length : ℤ) < cfg.creatorLicences
  · simp [check, getRecords_of_deleteOk env s hdel, hc]
  · simp [check, getRecords_of_deleteOk env s hdel, hc]

/-- C4 witness: one lease expired a second ago, one expiring in an hour,
capacity 5: `/check` purges the expired lease and reports 4 licences. -/
theorem c4_check_endpoint_witness :
    (Env.mk true true true 1000000 0).deleteOk = true
    ∧ check ⟨5, 60⟩ ⟨true, true, true, 1000000, 0⟩
        ⟨[⟨"a", none, 0, 999000⟩, ⟨"b", none, 0, 4600000⟩], 1000000⟩ =
      some ({ status := Status.success, licences := 4 },
            ⟨[⟨"b", none, 0, 4600000⟩], 1000000⟩) := by
  refine ⟨rfl, ?_⟩
  rw [c4_check_endpoint ⟨5, 60⟩ ⟨true, true, true, 1000000, 0⟩
      ⟨[⟨"a", none, 0, 999000⟩, ⟨"b", none, 0, 4600000⟩], 1000000⟩ rfl]
  decide

/-- C5: when the insert succeeds, the `/add` success body reports the
remaining licences as `capacity - active - 1`, with `active` the count the
purge-and-count step of the same request observed. -/
theorem c5_remaining_licences (cfg : Config) (env : Env) (s : Store) (item : Item)
    (hdel : env.deleteOk = true) (htok : env.tokenOk = true) (haddOk : env.addOk = true)
    (hcap : ((purge s).records.length : ℤ) < cfg.creatorLicences) :
    (create_item cfg env s item).map (fun p => (p.1.status, p.1.licencesRemaining)) =
      some (Status.success,
            some (cfg.creatorLicences - ((purge s).records.length : ℤ) - 1)) := by
  rw [create_item_granted_ok cfg env s item hdel htok haddOk hcap]
  rfl

/-- C5 witness: capacity 2, no active leases: the success body reports
`2 - 0 - 1 = 1` remaining licence. -/
theorem c5_remaining_licences_witness :
    ((0:ℤ) < 2)
    ∧ (create_item ⟨2, 60⟩ ⟨true, true, true, 7, 0⟩ ⟨[], 0⟩ ⟨"u1", none⟩).map
        (fun p => (p.1.status, p.1.licencesRemaining)) =
      some (Status.success, some 1) := by
  have h := c5_remaining_licences ⟨2, 60⟩ ⟨true, true, true, 7, 0⟩ ⟨[], 0⟩ ⟨"u1", none⟩
      rfl rfl rfl (by decide)
  refine ⟨by decide, ?_⟩
  rw [h]
  decide

/-- C6: a denied `/add` request (capacity ≤ purged count) answers `failed`
having called the token endpoint exactly once (inside purge-and-count),
attempted no insert, and left the store exactly as the purge left it. -/
theorem c6_denied_frame (cfg : Config) (env : Env) (s : Store) (item : Item)
    (hdel : env.deleteOk = true)
    (hcap : cfg.creatorLicences ≤ ((purge s).records.length : ℤ)) :
    create_item cfg env s item =
      some ({ ID := item.ID, creator := item.username, status := Status.failed },
            purge s, { tokenCalls := 1, insertAttempts := 0 }) :=
  create_item_denied cfg env s item hdel hcap

/-- C6 witness: capacity 2 and two unexpired leases: `/add` for "u3" is
denied, the store keeps exactly the two leases, one token call, no insert. -/
theorem c6_denied_frame_witness :
    ((2:ℤ) ≤ ((purge ⟨[⟨"a", none, 0, 9000⟩, ⟨"b", none, 0, 9000⟩], 1000⟩).records.length : ℤ))
    ∧ create_item ⟨2, 60⟩ ⟨true, true, true, 2000, 0⟩
        ⟨[⟨"a", none, 0, 9000⟩, ⟨"b", none, 0, 9000⟩], 1000⟩ ⟨"u3", none⟩ =
      some ({ ID := "u3", creator := none, status := Status.failed },
            purge ⟨[⟨"a", none, 0, 9000⟩, ⟨"b", none, 0, 9000⟩], 1000⟩,
            { tokenCalls := 1, insertAttempts := 0 }) :=
  ⟨by decide,
   c6_denied_frame ⟨2, 60⟩ ⟨true, true, true, 2000, 0⟩
     ⟨[⟨"a", none, 0, 9000⟩, ⟨"b", none, 0, 9000⟩], 1000⟩ ⟨"u3", none⟩ rfl (by decide)⟩

/-- C7: a granted `/add` submits exactly one record `{id, user_, start,
end_}` as a single-element batch with rollback-on-failure enabled; the
resulting store is the store's `addFeatures` response to that batch, and
the reported status is success iff the store's response status is. -/
theorem c7_single_batch_rollback (cfg : Config) (env : Env) (s : Store) (item : Item)
    (hdel : env.deleteOk = true) (htok : env.tokenOk = true)
    (hcap : ((purge s).records.length : ℤ) < cfg.creatorLicences) :
    (addRequest item env.now (env.now + (cfg.duration : ℚ) * 60000)).features =
      [{ id := item.ID, user_ := item.username, start := env.now,
         end_ := env.now + (cfg.duration : ℚ) * 60000 }]
    ∧ (addRequest item env.now (env.now + (cfg.duration : ℚ) * 60000)).features.length = 1
    ∧ (addRequest item env.now (env.now + (cfg.duration : ℚ) * 60000)).rollbackOnFailure = true
    ∧ (create_item cfg env s item).map (fun p => p.2.1) =
        some (addFeatures env.addOk env.leak
          (addRequest item env.now (env.now + (cfg.duration : ℚ) * 60000)) (purge s))
    ∧ ((create_item cfg env s item).map (fun p => p.1.status) = some Status.success
        ↔ env.addOk = true) := by
  refine ⟨rfl, rfl, rfl, ?_, ?_⟩
  · cases ha : env.addOk
    · rw [create_item_granted_fail cfg env s item hdel htok ha hcap]
      simp [addFeatures, addRequest]
    · rw [create_item_granted_ok cfg env s item hdel htok ha hcap]
      simp [addFeatures, addRequest, purge]
  · cases ha : env.addOk
    · rw [create_item_granted_fail cfg env s item hdel htok ha hcap]
      simp
    · rw [create_item_granted_ok cfg env s item hdel htok ha hcap]
      simp

/-- C7 witness: empty store, capacity 2: the batch has one record with
rollback enabled and the succeeding insert yields a success status. -/
theorem c7_single_batch_rollback_witness :
    (addRequest ⟨"u1", none⟩ 7 (7 + ((60 : ℤ) : ℚ) * 60000)).features.length = 1
    ∧ (addRequest ⟨"u1", none⟩ 7 (7 + ((60 : ℤ) : ℚ) * 60000)).rollbackOnFailure = true
    ∧ ((create_item ⟨2, 60⟩ ⟨true, true, true, 7, 0⟩ ⟨[], 0⟩ ⟨"u1", none⟩).map
        (fun p => p.1.status) = some Status.success) := by
  have h := c7_single_batch_rollback ⟨2, 60⟩ ⟨true, true, true, 7, 0⟩ ⟨[], 0⟩ ⟨"u1", none⟩
      rfl rfl (by decide)
  exact ⟨h.2.1, h.2.2.1, h.2.2.2.2.mpr rfl⟩

/-- C8: when the insert fails, the rolled-back store is exactly the purged
store, the caller receives `failed`, and a subsequent purge-and-count sees
the same records and the same count. -/
theorem c8_insert_failure_atomic (cfg : Config) (env : Env) (s : Store) (item : Item)
    (hdel : env.deleteOk = true) (htok : env.tokenOk = true)
    (hcap : ((purge s).records.length : ℤ) < cfg.creatorLicences)
    (hfail : env.addOk = false) :
    create_item cfg env s item =
      some ({ ID := item.ID, creator := item.username, status := Status.failed },
            purge s, { tokenCalls := 2, insertAttempts := 1 })
    ∧ getRecords env (purge s) = some ((purge s).records.length, purge s) := by
  refine ⟨create_item_granted_fail cfg env s item hdel htok hfail hcap, ?_⟩
  rw [getRecords_of_deleteOk env (purge s) hdel, purge_idem]

/-- C8 witness: capacity 2, empty store, failing insert: the response is
`failed`, the store stays purged-empty and a re-count still returns 0. -/
theorem c8_insert_failure_atomic_witness :
    create_item ⟨2, 60⟩ ⟨true, true, false, 7, 0⟩ ⟨[], 0⟩ ⟨"u1", none⟩ =
      some ({ ID := "u1", creator := none, status := Status.failed },
            purge ⟨[], 0⟩, { tokenCalls := 2, insertAttempts := 1 })
    ∧ getRecords ⟨true, true, false, 7, 0⟩ (purge ⟨[], 0⟩) =
        some ((purge (⟨[], 0⟩ : Store)).records.length, purge ⟨[], 0⟩) :=
  c8_insert_failure_atomic ⟨2, 60⟩ ⟨true, true, false, 7, 0⟩ ⟨[], 0⟩ ⟨"u1", none⟩
    rfl rfl (by decide) rfl

/-- C9: purge removes exactly the leases with `end_ < now`, leaves every
other lease untouched, and is idempotent: a second purge at the same store
time changes nothing. -/
theorem c9_purge_exact_and_idem (s : Store) :
    (∀ l, l ∈ (purge s).records ↔ l ∈ s.records ∧ ¬ l.end_ < s.now)
    ∧ purge (purge s) = purge s :=
  ⟨mem_purge s, purge_idem s⟩

/-- C10: a lease whose `end_` equals the store's current time is not
deleted by the purge (`end_ < now` is false), hence is counted toward the
active count, even though it is not active under the spec's strict
`now < end_` definition; concretely, with capacity 1 such a lease alone
already makes `/check` deny. -/
theorem c10_boundary_lease (s : Store) (l : Lease)
    (hmem : l ∈ s.records) (hend : l.end_ = s.now) :
    l ∈ (purge s).records
    ∧ specActive l s.now = false
    ∧ 1 ≤ (purge s).records.length
    ∧ check ⟨1, 60⟩ ⟨true, true, true, 1000, 0⟩ ⟨[⟨"u", none, 0, 1000⟩], 1000⟩ =
        some ({ status := Status.failed, licences := 0 },
              ⟨[⟨"u", none, 0, 1000⟩], 1000⟩) := by
  have hm : l ∈ (purge s).records :=
    (mem_purge s l).mpr ⟨hmem, by rw [hend]; exact lt_irrefl _⟩
  refine ⟨hm, ?_, List.length_pos_of_mem hm, by decide⟩
  simp [specActive, hend]

/-- C10 witness: a lease ending exactly at store time 1000 survives the
purge, is not spec-active, is counted, and capacity 1 makes `/check` deny. -/
theorem c10_boundary_lease_witness :
    (⟨"u", none, 0, 1000⟩ : Lease) ∈
        (purge ⟨[⟨"u", none, 0, 1000⟩], 1000⟩).records
    ∧ specActive ⟨"u", none, 0, 1000⟩ 1000 = false
    ∧ 1 ≤ (purge (⟨[⟨"u", none, 0, 1000⟩], 1000⟩ : Store)).records.length
    ∧ check ⟨1, 60⟩ ⟨true, true, true, 1000, 0⟩ ⟨[⟨"u", none, 0, 1000⟩], 1000⟩ =
        some ({ status := Status.failed, licences := 0 },
              ⟨[⟨"u", none, 0, 1000⟩], 1000⟩) :=
  c10_boundary_lease ⟨[⟨"u", none, 0, 1000⟩], 1000⟩ ⟨"u", none, 0, 1000⟩
    (by decide) rfl
